import Mathlib

/-!
# Verification of the BWR (bulletin of winds report) generator

A shallow embedding of `bwr_generator.py` (class `BwrGenerator`) together
with the configuration constants it uses from `config.py`.  Pure numeric
code is embedded over `ℚ` (exact linear arithmetic) or `ℝ` (the
transcendental standard-atmosphere and wind-direction formulas); the CSV
row processing, timestamp handling and string formatting are embedded as
computable functions on lists and strings.  Fallible operations (list
indexing, `int()` / `float()` parsing, `datetime` construction) are
modelled with `Option`, `none` standing for the Python exception that the
surrounding code catches.
-/

set_option exponentiation.threshold 200000
set_option maxRecDepth 10000

namespace BWR

/-! ## Configuration constants (`config.py`) -/

/-- `BWR_LEVELS_MB` from `config.py`: the standard pressure levels, in hPa,
descending. -/
def BWR_LEVELS_MB : List ℕ := [900, 700, 500, 400, 300, 250, 150, 100, 70, 50, 30, 20, 10]

/-- The fixed layer tops in km, `range(2, 32, 2)` from
`_create_single_report`: `[2, 4, ..., 30]`. -/
def layerTopsKm : List ℕ := List.range' 2 15 2

/-- The target heights (in metres) the interpolator is evaluated at:
`(layer_top_km - 1) * 1000.0` for each layer top. -/
def layerTargets : List ℚ := layerTopsKm.map (fun k => ((k : ℚ) - 1) * 1000)

/-! ## Layer interpolation (`_interpolate_value` and the
interpolation block of `_create_single_report`, lines 147–170)

Data points are triples `(height, u, v)`.  The code is generic in the
numeric type: the program runs it on floats, we instantiate it at `ℚ`
(for exact evaluation) and at `ℝ` (inside the full report pipeline). -/

variable {α : Type} [LinearOrderedField α]

/-- `_interpolate_value(x_target, x1, y1, x2, y2)`: linear interpolation,
returning `y1` when `x2 == x1`. -/
def interpolateValue (xt x1 y1 x2 y2 : α) : α :=
  if x2 = x1 then y1 else y1 + (xt - x1) * (y2 - y1) / (x2 - x1)

/-- The bracketing-pair search `for i in range(len(data_points) - 1): if
data_points[i][0] <= target_h <= data_points[i+1][0]` — returns the first
adjacent pair whose heights bracket `t`, or `none` when the loop falls
through. -/
def findBracket (t : α) : List (α × α × α) → Option ((α × α × α) × (α × α × α))
  | p1 :: p2 :: rest =>
      if p1.1 ≤ t ∧ t ≤ p2.1 then some (p1, p2) else findBracket t (p2 :: rest)
  | _ => none

/-- The pair-selection logic of `_create_single_report` lines 147–167:
clamp below the first sample, clamp above the last sample, otherwise
search for a bracketing pair with fallback to the first sample.  `none`
models the `IndexError` raised by `data_points[0]` on an empty list. -/
def selectPair (dps : List (α × α × α)) (t : α) : Option ((α × α × α) × (α × α × α)) :=
  match dps with
  | [] => none
  | d :: ds =>
      if t < d.1 then some (d, d)
      else if t > ((d :: ds).getLast (List.cons_ne_nil d ds)).1 then
        some ((d :: ds).getLast (List.cons_ne_nil d ds), (d :: ds).getLast (List.cons_ne_nil d ds))
      else
        match findBracket t (d :: ds) with
        | some pr => some pr
        | none => some (d, d)

/-- Lines 147–170 of `_create_single_report`: produce the interpolated
`(u, v)` for target height `t` from the (height-sorted) data points. -/
def interpUV (dps : List (α × α × α)) (t : α) : Option (α × α) :=
  (selectPair dps t).map (fun pr =>
    (interpolateValue t pr.1.1 pr.1.2.1 pr.2.1 pr.2.2.1,
     interpolateValue t pr.1.1 pr.1.2.2 pr.2.1 pr.2.2.2))

/-- Sortedness of a profile: ascending by height (first component). -/
def HeightSorted (dps : List (α × α × α)) : Prop :=
  List.Sorted (fun a b : α × α × α => a.1 ≤ b.1) dps

/-! ## Python `datetime` (construction, equality, `replace`) -/

/-- A Python `datetime.datetime` value. -/
structure DateTime where
  year : ℕ
  month : ℕ
  day : ℕ
  hour : ℕ
  minute : ℕ
  second : ℕ
  microsecond : ℕ
  deriving DecidableEq, Repr

/-- Gregorian leap-year rule, as used by `datetime`. -/
def isLeapYear (y : ℕ) : Bool := y % 4 == 0 && (y % 100 != 0 || y % 400 == 0)

/-- Number of days in a month. -/
def daysInMonth (y m : ℕ) : ℕ :=
  if m = 2 then (if isLeapYear y then 29 else 28)
  else if m = 4 ∨ m = 6 ∨ m = 9 ∨ m = 11 then 30
  else 31

/-- Validity of a `DateTime` under `datetime`'s constructor checks. -/
def DateTime.Valid (t : DateTime) : Prop :=
  1 ≤ t.year ∧ t.year ≤ 9999 ∧ 1 ≤ t.month ∧ t.month ≤ 12 ∧
  1 ≤ t.day ∧ t.day ≤ daysInMonth t.year t.month ∧
  t.hour ≤ 23 ∧ t.minute ≤ 59 ∧ t.second ≤ 59 ∧ t.microsecond ≤ 999999

instance (t : DateTime) : Decidable t.Valid := by unfold DateTime.Valid; infer_instance

/-- `datetime(y, m, d, h)` — `none` models the `ValueError` raised on
out-of-range fields (caught by the per-row handler). -/
def mkDateTime (y m d h : ℤ) : Option DateTime :=
  if 1 ≤ y ∧ y ≤ 9999 ∧ 1 ≤ m ∧ m ≤ 12 ∧ 1 ≤ d ∧ 0 ≤ h ∧ h ≤ 23 then
    let t : DateTime := ⟨y.toNat, m.toNat, d.toNat, h.toNat, 0, 0, 0⟩
    if d.toNat ≤ daysInMonth t.year t.month then some t else none
  else none

/-- `dt.replace(minute=0, second=0, microsecond=0)` from
`generate_reports` line 101. -/
def DateTime.truncToHour (t : DateTime) : DateTime :=
  { t with minute := 0, second := 0, microsecond := 0 }

/-! ## Python `int()` / `float()` on strings

Modelled for plain decimal literals (optional surrounding whitespace,
optional single sign, decimal digits, for `float` an optional single
point); any other shape yields `none` (the `ValueError` the row handler
catches). -/

/-- Numeric value of a digit list (most significant first). -/
def digitsVal (l : List Char) : ℕ := l.foldl (fun a c => 10 * a + (c.toNat - 48)) 0

/-- Strip leading and trailing whitespace from a character list. -/
def trimChars (l : List Char) : List Char :=
  ((l.dropWhile Char.isWhitespace).reverse.dropWhile Char.isWhitespace).reverse

/-- Split off an optional sign, returning the sign as `1` or `-1`. -/
def splitSign : List Char → ℤ × List Char
  | '-' :: rest => (-1, rest)
  | '+' :: rest => (1, rest)
  | l => (1, l)

/-- Python `int(s)` for decimal literals. -/
def pyInt (s : String) : Option ℤ :=
  let (sgn, ds) := splitSign (trimChars s.toList)
  if ds ≠ [] ∧ ds.all Char.isDigit then some (sgn * digitsVal ds) else none

/-- Python `float(s)` for plain decimal literals, as an exact rational. -/
def pyFloat (s : String) : Option ℚ :=
  let (sgn, ds) := splitSign (trimChars s.toList)
  match ds.splitOn '.' with
  | [a] => if a ≠ [] ∧ a.all Char.isDigit then some ((sgn : ℚ) * digitsVal a) else none
  | [a, b] =>
      if (a ≠ [] ∨ b ≠ []) ∧ a.all Char.isDigit ∧ b.all Char.isDigit then
        some ((sgn : ℚ) * ((digitsVal a : ℚ) + (digitsVal b : ℚ) / 10 ^ b.length))
      else none
  | _ => none

/-! ## Timestamp formatting (`_format_dtg`) -/

/-- Zero-pad the decimal representation of `n` to width `w`
(`f"{n:02d}"`-style for nonnegative `n`; negative values keep their
sign in front of the padded magnitude, like Python's `%0wd`). -/
def padNum (w : ℕ) (n : ℤ) : String :=
  let mag := toString n.natAbs
  let pad := String.mk (List.replicate (w - mag.length - (if n < 0 then 1 else 0)) '0')
  (if n < 0 then "-" else "") ++ pad ++ mag

/-- Uppercased `%b` month abbreviation (C locale), as produced by
`strftime("%b").upper()`. -/
def monthAbbrUpper (m : ℕ) : String :=
  match m with
  | 1 => "JAN" | 2 => "FEB" | 3 => "MAR" | 4 => "APR" | 5 => "MAY" | 6 => "JUN"
  | 7 => "JUL" | 8 => "AUG" | 9 => "SEP" | 10 => "OCT" | 11 => "NOV" | 12 => "DEC"
  | _ => ""

/-- `_format_dtg`: `dt.strftime("%d%H%MZ%b%Y").upper()` —
`DDHHMMZMONYYYY`. -/
def formatDtg (dt : DateTime) : String :=
  padNum 2 dt.day ++ padNum 2 dt.hour ++ padNum 2 dt.minute ++ "Z" ++
    monthAbbrUpper dt.month ++ padNum 4 dt.year

/-! ## The analytic layer over `ℝ`

`_pressure_to_height_std`, `math.atan2`, `_get_wind_direction_speed`,
Python's float `%` and `round`. -/

open Real in
/-- The troposphere branch of `_pressure_to_height_std` (line 24):
`44330.0 * (1.0 - (p_hpa / 1013.25) ** (1.0 / 5.25588))`. -/
noncomputable def heightTropo (p : ℝ) : ℝ :=
  44330.0 * (1.0 - (p / 1013.25) ^ ((1.0 : ℝ) / 5.25588))

open Real in
/-- The stratosphere branch of `_pressure_to_height_std` (line 27):
`11000.0 - math.log(p_hpa / 226.32) / 1.5769e-4`. -/
noncomputable def heightStrato (p : ℝ) : ℝ :=
  11000.0 - Real.log (p / 226.32) / 1.5769e-4

/-- `_pressure_to_height_std(p_hpa)`: standard-atmosphere pressure →
geopotential height conversion. -/
noncomputable def pressureToHeightStd (p : ℝ) : ℝ :=
  if p > 226.32 then heightTropo p else heightStrato p

open Real in
/-- `math.atan2(y, x)` on the reals (C `atan2` semantics; the signed-zero
distinction of floats collapses to the single real zero, with
`atan2(0, 0) = 0`). -/
noncomputable def atan2 (y x : ℝ) : ℝ :=
  if 0 < x then arctan (y / x)
  else if x < 0 then (if 0 ≤ y then arctan (y / x) + π else arctan (y / x) - π)
  else if 0 < y then π / 2
  else if y < 0 then -(π / 2)
  else 0

/-- Python's float `%` for a positive modulus: `a - b * floor(a / b)`. -/
noncomputable def pyMod (a b : ℝ) : ℝ := a - b * ⌊a / b⌋

/-- Python 3 `round` to an integer: round-half-to-even. -/
noncomputable def pyRound (x : ℝ) : ℤ :=
  if Int.fract x = 1 / 2 then (if 2 ∣ ⌊x⌋ then ⌊x⌋ else ⌊x⌋ + 1) else round x

open Real in
/-- The direction component of `_get_wind_direction_speed`:
`(270 - math.degrees(math.atan2(v, u))) % 360`. -/
noncomputable def windDirection (u v : ℝ) : ℝ :=
  pyMod (270 - atan2 v u * (180 / π)) 360

open Real in
/-- The speed component of `_get_wind_direction_speed`:
`math.sqrt(u**2 + v**2) * 3.6` (km/h). -/
noncomputable def windSpeedKph (u v : ℝ) : ℝ :=
  Real.sqrt (u ^ 2 + v ^ 2) * 3.6

/-! ## The report pipeline (`generate_reports`, `_create_single_report`) -/

/-- Column indices extracted from the header row
(`generate_reports` lines 87–95): the name/time columns plus, per
pressure level, the `u{level}` and `v{level}` column pair. -/
structure Indices where
  name : ℕ
  yyyy : ℕ
  mm : ℕ
  dd : ℕ
  hh : ℕ
  levels : List (ℕ × ℕ × ℕ)
  deriving Repr, DecidableEq

/-- `header.index(c)` — first index of `c`, `none` models the
`ValueError` on a missing column. -/
def headerIndex (header : List String) (c : String) : Option ℕ :=
  match header with
  | [] => none
  | h :: rest => if h = c then some 0 else (headerIndex rest c).map (· + 1)

/-- All-or-nothing effectful map over a list (the Option analogue of a
Python `for` loop whose body may raise). -/
def optionMapList {β γ : Type} (f : β → Option γ) : List β → Option (List γ)
  | [] => some []
  | x :: xs => (f x).bind fun y => (optionMapList f xs).map fun ys => y :: ys

/-- Lines 86–95 of `generate_reports`: look up all required column
indices; `none` models the caught `ValueError` (fatal configuration
error). -/
def findIndices (header : List String) (levels : List ℕ) : Option Indices :=
  (headerIndex header "bwr_name").bind fun iName =>
  (headerIndex header "yyyy").bind fun iY =>
  (headerIndex header "mm").bind fun iM =>
  (headerIndex header "dd").bind fun iD =>
  (headerIndex header "hh").bind fun iH =>
  (optionMapList (fun l =>
      (headerIndex header ("u" ++ toString l)).bind fun iu =>
      (headerIndex header ("v" ++ toString l)).map fun iv => (l, iu, iv)) levels).map
    fun lvls => ⟨iName, iY, iM, iD, iH, lvls⟩

/-- The required header columns of the dataset contract. -/
def requiredColumns (levels : List ℕ) : List String :=
  ["bwr_name", "yyyy", "mm", "dd", "hh"] ++
    levels.flatMap (fun l => ["u" ++ toString l, "v" ++ toString l])

/-- The time-field extraction of a data row (lines 106–109): the four
`int(...)` parses, `none` on any failure. -/
def rowTimeTuple (idx : Indices) (row : List String) : Option (ℤ × ℤ × ℤ × ℤ) := do
  let y ← (row.get? idx.yyyy).bind pyInt
  let m ← (row.get? idx.mm).bind pyInt
  let d ← (row.get? idx.dd).bind pyInt
  let h ← (row.get? idx.hh).bind pyInt
  pure (y, m, d, h)

/-- Lines 106–111: parsed row timestamp, `none` on a parse or
`datetime` failure. -/
def rowDT (idx : Indices) (row : List String) : Option DateTime :=
  (rowTimeTuple idx row).bind (fun q => mkDateTime q.1 q.2.1 q.2.2.1 q.2.2.2)

/-- Lines 132–137 of `_create_single_report`: extract and parse the
`(u, v)` pair for every configured level; `none` models the
`IndexError`/`ValueError` on a missing or non-numeric field. -/
def parseWinds (row : List String) (levels : List (ℕ × ℕ × ℕ)) :
    Option (List (ℕ × ℚ × ℚ)) :=
  optionMapList (fun lv =>
    (row.get? lv.2.1).bind fun su =>
    (pyFloat su).bind fun u =>
    (row.get? lv.2.2).bind fun sv =>
    (pyFloat sv).map fun v => (lv.1, u, v)) levels

/-- Lines 131–139: the height-sorted data points of a profile
(`data_points.sort(key=lambda x: x[0])`, a stable ascending sort). -/
noncomputable def buildDataPoints (winds : List (ℕ × ℚ × ℚ)) : List (ℝ × ℝ × ℝ) :=
  (winds.map (fun w => (pressureToHeightStd w.1, (w.2.1 : ℝ), (w.2.2 : ℝ)))).mergeSort
    (fun a b => decide (a.1 ≤ b.1))

/-- One entry of the `LAYERM` line (lines 143–178): `HH/DDD/FFF` for one
layer top, `none` when the interpolation step fails (empty profile). -/
noncomputable def layerField (dps : List (ℝ × ℝ × ℝ)) (layerTopKm : ℕ) : Option String :=
  (interpUV dps (((layerTopKm : ℝ) - 1) * 1000.0)).map (fun uv =>
    padNum 2 layerTopKm ++ "/" ++ padNum 3 (pyRound (windDirection uv.1 uv.2)) ++ "/" ++
      padNum 3 (pyRound (windSpeedKph uv.1 uv.2)))

/-- Lines 141–192 of `_create_single_report` after wind-field parsing:
assemble the full bulletin text for one area. -/
noncomputable def renderReport (winds : List (ℕ × ℚ × ℚ))
    (areaName exer dtgStr zulumStr : String) : Option String :=
  let dps := buildDataPoints winds
  (optionMapList (layerField dps) layerTopsKm).map fun entries =>
  (String.intercalate "\n"
    [exer,
     "MSGID/CBRN BWR/IMGW-PIB/-/-/-/-/-/-/-/-//",
     "GEODATUM/WGE//",
     dtgStr,
     "AREAM/" ++ areaName ++ "//",
     zulumStr,
     "UNITM/-/DGG/KPH/-//",
     "LAYERM/" ++ String.intercalate "/" entries ++ "//"])

/-- `_create_single_report(row, level_indices, area_name, ...)`. -/
noncomputable def createSingleReport (row : List String) (levels : List (ℕ × ℕ × ℕ))
    (areaName exer dtgStr zulumStr : String) : Option String :=
  (parseWinds row levels).bind (fun w => renderReport w areaName exer dtgStr zulumStr)

/-- The three possible fates of a data row in the scan loop
(lines 104–121). -/
inductive RowOutcome where
  | produced (report : String)
  | notMatched
  | skipped
  deriving Repr, DecidableEq

/-- Whether an outcome contributed a bulletin. -/
def RowOutcome.reportOf : RowOutcome → Option String
  | .produced r => some r
  | _ => none

/-- Whether an outcome was an error skip (one `"Error processing row"`
diagnostic). -/
def RowOutcome.isSkipped : RowOutcome → Bool
  | .skipped => true
  | _ => false

/-- The body of the scan loop (lines 104–121) for one row: parse the
time fields, compare with the target, and on a match build the report;
any `none` along the way is the caught per-row exception (`skipped`). -/
noncomputable def processRow (idx : Indices) (target : DateTime)
    (exer dtgStr zulumStr : String) (row : List String) : RowOutcome :=
  match (do
      let dt ← rowDT idx row
      if dt = target then do
        let areaName ← row.get? idx.name
        let rep ← createSingleReport row idx.levels areaName exer dtgStr zulumStr
        pure (RowOutcome.produced rep)
      else
        pure RowOutcome.notMatched : Option RowOutcome) with
  | some o => o
  | none => RowOutcome.skipped

/-- `exer += "//"` when it does not already end in `"//"`
(lines 71–72). -/
def fixExer (exer : String) : String :=
  if exer.toList.reverse.take 2 = ['/', '/'] then exer else exer ++ "//"

/-- The observable result of one `generate_reports` run.  `artifact` is
the final content of the output file given its previous content
`prev` (the fatal paths return without touching the file);
`reportedCount` is the count printed by the final diagnostic (`none`
when the run aborted before it); `errorMsg` is the structural-error
diagnostic; `rowDiagnostics` counts the per-row `"Error processing
row"` messages; `processedRows` counts the data rows the scan loop
examined. -/
structure GenResult where
  artifact : String
  reportedCount : Option ℕ
  errorMsg : Option String
  rowDiagnostics : ℕ
  processedRows : ℕ
  deriving Repr, DecidableEq

/-- `generate_reports(exer, dtg_created_dt, start_model_dt,
start_forecast_dt, end_forecast_dt)` over an already-loaded CSV row list
`rows`; `prev` is the pre-existing content of the output file. -/
noncomputable def generateReports (prev : String) (rows : List (List String))
    (levels : List ℕ) (exer : String)
    (dtgCreated startModel startForecast endForecast : DateTime) : GenResult :=
  let dtgStr := "DTG/" ++ formatDtg dtgCreated ++ "//"
  let zulumStr := "ZULUM/" ++ formatDtg startModel ++ "/" ++ formatDtg startForecast ++
    "/" ++ formatDtg endForecast ++ "//"
  let exer' := fixExer exer
  if rows.length < 3 then
    { artifact := prev, reportedCount := none,
      errorMsg := some "Warning: input CSV is empty or invalid.",
      rowDiagnostics := 0, processedRows := 0 }
  else
    match findIndices (rows.getD 1 []) levels with
    | none =>
        { artifact := prev, reportedCount := none,
          errorMsg := some "Error parsing CSV header",
          rowDiagnostics := 0, processedRows := 0 }
    | some idx =>
        let target := endForecast.truncToHour
        let outcomes := (rows.drop 2).map (processRow idx target exer' dtgStr zulumStr)
        let reports := outcomes.filterMap RowOutcome.reportOf
        { artifact := String.intercalate "\n" reports,
          reportedCount := some reports.length,
          errorMsg := none,
          rowDiagnostics := outcomes.countP (fun o => o.isSkipped),
          processedRows := outcomes.length }

/-! ## Interpolator lemmas -/

/-- Degenerate interpolation: coinciding sample heights yield `y1`. -/
lemma interpolateValue_same (t x y y' : α) : interpolateValue t x y x y' = y := by
  simp [interpolateValue]

/-- Interpolation between equal values yields that value. -/
lemma interpolateValue_const (t x1 x2 y : α) : interpolateValue t x1 y x2 y = y := by
  unfold interpolateValue
  split <;> simp

/-- `i` indexes an adjacent bracketing pair for target `t`. -/
def BracketAt (dps : List (α × α × α)) (t : α) (i : ℕ) : Prop :=
  ∃ (hi : i + 1 < dps.length),
    (dps.get ⟨i, Nat.lt_of_succ_lt hi⟩).1 ≤ t ∧ t ≤ (dps.get ⟨i + 1, hi⟩).1

lemma findBracket_cons_cons (t : α) (p q : α × α × α) (rest : List (α × α × α)) :
    findBracket t (p :: q :: rest) =
      if p.1 ≤ t ∧ t ≤ q.1 then some (p, q) else findBracket t (q :: rest) := rfl

lemma bracketAt_cons_succ (p : α × α × α) (l : List (α × α × α)) (t : α) (j : ℕ) :
    BracketAt (p :: l) t (j + 1) ↔ BracketAt l t j := by
  constructor
  · rintro ⟨hj, h1, h2⟩
    exact ⟨Nat.lt_of_succ_lt_succ hj, h1, h2⟩
  · rintro ⟨hj, h1, h2⟩
    exact ⟨Nat.succ_lt_succ hj, h1, h2⟩

lemma bracketAt_zero (p q : α × α × α) (l : List (α × α × α)) (t : α) :
    BracketAt (p :: q :: l) t 0 ↔ p.1 ≤ t ∧ t ≤ q.1 := by
  constructor
  · rintro ⟨_, h1, h2⟩
    exact ⟨h1, h2⟩
  · rintro ⟨h1, h2⟩
    exact ⟨by simp, h1, h2⟩

/-- On a sorted profile whose first element is below `t` and whose last
element is above `t`, the linear scan returns the **first** adjacent
bracketing pair. -/
lemma findBracket_first (t : α) :
    ∀ (rest : List (α × α × α)) (p q : α × α × α),
      HeightSorted (p :: q :: rest) → p.1 ≤ t →
      t ≤ ((p :: q :: rest).getLast (by simp)).1 →
      ∃ i, ∃ (hi : i + 1 < (p :: q :: rest).length),
        BracketAt (p :: q :: rest) t i ∧
        (∀ j, j < i → ¬ BracketAt (p :: q :: rest) t j) ∧
        findBracket t (p :: q :: rest) =
          some ((p :: q :: rest).get ⟨i, Nat.lt_of_succ_lt hi⟩,
                (p :: q :: rest).get ⟨i + 1, hi⟩) := by
  intro rest
  induction rest with
  | nil =>
      intro p q _ hp hq
      refine ⟨0, by simp, ⟨by simp, hp, by simpa using hq⟩, by simp, ?_⟩
      rw [findBracket_cons_cons, if_pos ⟨hp, by simpa using hq⟩]
      rfl
  | cons r rest' ih =>
      intro p q hs hp hlast
      by_cases hbr : p.1 ≤ t ∧ t ≤ q.1
      · refine ⟨0, by simp, ⟨by simp, hbr.1, hbr.2⟩, by simp, ?_⟩
        rw [findBracket_cons_cons, if_pos hbr]
        rfl
      · have hq : q.1 ≤ t := by
          rcases not_and_or.mp hbr with h | h
          · exact absurd hp h
          · exact le_of_lt (not_le.mp h)
        have hs' : HeightSorted (q :: r :: rest') := (List.sorted_cons.mp hs).2
        have hlast' : t ≤ ((q :: r :: rest').getLast (by simp)).1 := by
          rwa [List.getLast_cons (by simp : q :: r :: rest' ≠ [])] at hlast
        obtain ⟨i', hi', hbr', hmin', heq'⟩ := ih q r hs' hq hlast'
        refine ⟨i' + 1, Nat.succ_lt_succ hi', ?_, ?_, ?_⟩
        · exact (bracketAt_cons_succ p _ t i').mpr hbr'
        · intro j hj
          cases j with
          | zero =>
              rw [bracketAt_zero]
              exact hbr
          | succ j' =>
              rw [bracketAt_cons_succ]
              exact hmin' j' (Nat.lt_of_succ_lt_succ hj)
        · rw [findBracket_cons_cons, if_neg hbr, heq']
          rfl

/-- A singleton profile collapses to the sample's `(u, v)` at every
target height. -/
lemma interpUV_singleton (d : α × α × α) (t : α) :
    interpUV [d] t = some (d.2.1, d.2.2) := by
  by_cases h1 : t < d.1
  · simp [interpUV, selectPair, h1, interpolateValue_same]
  · by_cases h2 : t > d.1
    · simp [interpUV, selectPair, h1, h2, interpolateValue_same]
    · simp [interpUV, selectPair, findBracket, h1, h2, interpolateValue_same]

/-- In a sorted nonempty profile the head's height is at most the last
sample's height. -/
lemma head_le_getLast (dps : List (α × α × α)) (hne : dps ≠ [])
    (hs : HeightSorted dps) : (dps.head hne).1 ≤ (dps.getLast hne).1 := by
  cases dps with
  | nil => exact absurd rfl hne
  | cons d ds =>
      cases ds with
      | nil => simp
      | cons e es =>
          have hmem : (d :: e :: es).getLast (by simp) ∈ e :: es := by
            rw [List.getLast_cons (by simp : e :: es ≠ [])]
            exact List.getLast_mem _
          exact (List.sorted_cons.mp hs).1 _ hmem

/-- Below the lowest sample the interpolation clamps to it. -/
lemma interpUV_clamp_low (d : α × α × α) (ds : List (α × α × α)) (t : α)
    (h : t < d.1) : interpUV (d :: ds) t = some (d.2.1, d.2.2) := by
  simp [interpUV, selectPair, h, interpolateValue_same]

/-- Above the highest sample the interpolation clamps to it. -/
lemma interpUV_clamp_high (d : α × α × α) (ds : List (α × α × α)) (t : α)
    (hs : HeightSorted (d :: ds))
    (h : ((d :: ds).getLast (by simp)).1 < t) :
    interpUV (d :: ds) t =
      some (((d :: ds).getLast (by simp)).2.1, ((d :: ds).getLast (by simp)).2.2) := by
  have hd : ¬ t < d.1 := by
    have := head_le_getLast (d :: ds) (by simp) hs
    simp only [List.head_cons] at this
    exact not_lt.mpr (le_of_lt (lt_of_le_of_lt this h))
  simp [interpUV, selectPair, hd, h, interpolateValue_same]

end BWR

open BWR

/-- **C1.**  For every non-empty profile sorted ascending by height and
every target height `(layer_top_km - 1) * 1000` with `layer_top_km` in
`2, 4, …, 30`: a target strictly below the lowest sample's height yields
exactly the lowest sample's `(u, v)`; strictly above the highest, exactly
the highest sample's `(u, v)`; otherwise (given at least two samples) the
result is the linear interpolation `y1 + (t - x1) * (y2 - y1) / (x2 - x1)`
— degenerating to `y1` at equal heights — over the **first** adjacent
bracketing pair; a single-sample profile yields that sample's `(u, v)`. -/
theorem interpolator_spec_C1 (dps : List (ℚ × ℚ × ℚ)) (t : ℚ)
    (hne : dps ≠ []) (hs : HeightSorted dps) (_ht : t ∈ layerTargets) :
    (t < (dps.head hne).1 →
        interpUV dps t = some ((dps.head hne).2.1, (dps.head hne).2.2)) ∧
    ((dps.getLast hne).1 < t →
        interpUV dps t = some ((dps.getLast hne).2.1, (dps.getLast hne).2.2)) ∧
    (2 ≤ dps.length → (dps.head hne).1 ≤ t → t ≤ (dps.getLast hne).1 →
        ∃ i, ∃ (hi : i + 1 < dps.length),
          BracketAt dps t i ∧ (∀ j, j < i → ¬ BracketAt dps t j) ∧
          interpUV dps t = some
            (interpolateValue t (dps.get ⟨i, Nat.lt_of_succ_lt hi⟩).1
              (dps.get ⟨i, Nat.lt_of_succ_lt hi⟩).2.1
              (dps.get ⟨i + 1, hi⟩).1 (dps.get ⟨i + 1, hi⟩).2.1,
             interpolateValue t (dps.get ⟨i, Nat.lt_of_succ_lt hi⟩).1
              (dps.get ⟨i, Nat.lt_of_succ_lt hi⟩).2.2
              (dps.get ⟨i + 1, hi⟩).1 (dps.get ⟨i + 1, hi⟩).2.2)) ∧
    (dps.length = 1 →
        interpUV dps t = some ((dps.head hne).2.1, (dps.head hne).2.2)) := by
  cases dps with
  | nil => exact absurd rfl hne
  | cons d ds =>
      refine ⟨fun h => interpUV_clamp_low d ds t h,
              fun h => interpUV_clamp_high d ds t hs h, ?_, ?_⟩
      · intro hlen hlow hhigh
        match ds, hlen with
        | q :: rest, _ =>
          simp only [List.head_cons] at hlow
          obtain ⟨i, hi, hbr, hmin, heq⟩ := findBracket_first t rest d q hs hlow hhigh
          refine ⟨i, hi, hbr, hmin, ?_⟩
          have hd : ¬ t < d.1 := not_lt.mpr hlow
          have hl : ¬ ((d :: q :: rest).getLast (by simp)).1 < t := not_lt.mpr hhigh
          simp only [interpUV, selectPair, if_neg hd, gt_iff_lt, if_neg hl, heq,
            Option.map_some']
      · intro hlen
        match ds, hlen with
        | [], _ => exact interpUV_singleton d t

/-- Closed witness for `interpolator_spec_C1`: the sorted two-sample
profile `[(0, 1, 2), (2000, 3, 4)]` at the layer-2 target height
`1000` interpolates to `(2, 3)` through the first (and only)
bracketing pair. -/
theorem interpolator_spec_C1_witness :
    interpUV [((0 : ℚ), 1, 2), (2000, 3, 4)] 1000 = some (2, 3) := by
  obtain ⟨-, -, h3, -⟩ :=
    interpolator_spec_C1 [((0 : ℚ), 1, 2), (2000, 3, 4)] 1000 (by simp)
      (by constructor <;> simp)
      (List.mem_map.mpr ⟨2, by decide, by norm_num⟩)
  obtain ⟨i, hi, -, -, heq⟩ := h3 (by simp) (by norm_num) (by norm_num)
  have hi0 : i = 0 := by
    have : i + 1 < 2 := by simpa using hi
    omega
  subst hi0
  rw [heq]
  norm_num [interpolateValue]

/-- **C5 counterexample.**  On the empty profile the interpolation step
does not complete: `data_points[0]` raises `IndexError` (modelled by
`none`), contradicting "no out-of-bounds access or error occurs on an
empty profile". -/
theorem empty_profile_errors_C5 :
    interpUV ([] : List (ℚ × ℚ × ℚ)) 1000 = none := rfl

/-- **C5 (amended).**  For a single-sample profile the interpolation step
collapses every one of the 15 layer targets to that sample's `(u, v)`
exactly; the empty profile, by contrast, fails with an index error
(see the counterexample). -/
theorem single_sample_collapses_C5 (h u v t : ℚ) (_ht : t ∈ layerTargets) :
    interpUV [(h, u, v)] t = some (u, v) :=
  interpUV_singleton (h, u, v) t

/-- Closed witness for `single_sample_collapses_C5` at the layer-30
target height `29000`. -/
theorem single_sample_collapses_C5_witness :
    interpUV [((5000 : ℚ), 7, -2)] 29000 = some (7, -2) :=
  single_sample_collapses_C5 5000 7 (-2) 29000
    (List.mem_map.mpr ⟨30, by decide, by norm_num⟩)

namespace BWR

/-! ## Lemmas on `pyMod`, `pyRound`, `atan2` -/

lemma pyMod_eq_mul_fract {b : ℝ} (hb : b ≠ 0) (a : ℝ) :
    pyMod a b = b * Int.fract (a / b) := by
  unfold pyMod Int.fract
  field_simp

lemma pyMod_nonneg {b : ℝ} (hb : 0 < b) (a : ℝ) : 0 ≤ pyMod a b := by
  rw [pyMod_eq_mul_fract hb.ne']
  exact mul_nonneg hb.le (Int.fract_nonneg _)

lemma pyMod_lt {b : ℝ} (hb : 0 < b) (a : ℝ) : pyMod a b < b := by
  rw [pyMod_eq_mul_fract hb.ne']
  nlinarith [Int.fract_lt_one (a / b)]

lemma pyMod_eq_self {a b : ℝ} (h0 : 0 ≤ a) (h1 : a < b) : pyMod a b = a := by
  have hb : 0 < b := lt_of_le_of_lt h0 h1
  have : ⌊a / b⌋ = 0 := by
    rw [Int.floor_eq_zero_iff]
    constructor
    · exact div_nonneg h0 hb.le
    · rw [div_lt_one hb]
      exact h1
  simp [pyMod, this]

lemma pyRound_of_fract_ne (x : ℝ) (h : Int.fract x ≠ 1 / 2) :
    pyRound x = round x := if_neg h

lemma pyRound_intCast (n : ℤ) : pyRound (n : ℝ) = n := by
  rw [pyRound_of_fract_ne]
  · exact round_intCast n
  · rw [Int.fract_intCast]
    norm_num

lemma pyRound_natCast (n : ℕ) : pyRound (n : ℝ) = n := by
  have := pyRound_intCast (n : ℤ)
  push_cast at this
  exact_mod_cast this

lemma pyRound_nonneg {x : ℝ} (h : 0 ≤ x) : 0 ≤ pyRound x := by
  unfold pyRound
  have hfl : (0 : ℤ) ≤ ⌊x⌋ := Int.floor_nonneg.mpr h
  split
  · split <;> omega
  · rw [round_eq]
    have : (0 : ℤ) ≤ ⌊x + 1 / 2⌋ := Int.floor_nonneg.mpr (by linarith)
    omega

lemma pyRound_le_of_lt {x : ℝ} {n : ℕ} (h : x < n) :
    pyRound x ≤ n := by
  unfold pyRound
  have hfl : ⌊x⌋ < (n : ℤ) := Int.floor_lt.mpr (by exact_mod_cast h)
  split
  · split <;> omega
  · rw [round_eq]
    have : ⌊x + 1 / 2⌋ < (n : ℤ) + 1 := by
      apply Int.floor_lt.mpr
      push_cast
      linarith
    omega

lemma atan2_zero_zero : atan2 0 0 = 0 := by
  simp [atan2]

lemma atan2_of_pos_x (y x : ℝ) (hx : 0 < x) : atan2 y x = Real.arctan (y / x) :=
  if_pos hx

lemma atan2_pos_y_zero_x (y : ℝ) (hy : 0 < y) : atan2 y 0 = Real.pi / 2 := by
  simp [atan2, hy]

/-- Two-sided bound on `arctan 500` in degrees, the crux of the
direction-rounding counterexample. -/
lemma arctan500_deg_bounds :
    (2247 / 25 : ℝ) < Real.arctan 500 * (180 / Real.pi) ∧
    Real.arctan 500 * (180 / Real.pi) < 90 := by
  have hpi := Real.pi_gt_three
  have hpi0 : (0 : ℝ) < Real.pi := by linarith
  have hdegpos : (0 : ℝ) < 180 / Real.pi := by positivity
  have hub : Real.arctan 500 * (180 / Real.pi) < 90 := by
    have h := mul_lt_mul_of_pos_right (Real.arctan_lt_pi_div_two 500) hdegpos
    have e : Real.pi / 2 * (180 / Real.pi) = 90 := by
      field_simp
      ring
    linarith
  refine ⟨?_, hub⟩
  have hinv : Real.arctan ((500 : ℝ)⁻¹) = Real.pi / 2 - Real.arctan 500 :=
    Real.arctan_inv_of_pos (by norm_num)
  have hinv_pos : 0 < Real.arctan ((500 : ℝ)⁻¹) := by
    have := Real.arctan_strictMono (show (0 : ℝ) < (500 : ℝ)⁻¹ by norm_num)
    rwa [Real.arctan_zero] at this
  have hinv_lt : Real.arctan ((500 : ℝ)⁻¹) < (500 : ℝ)⁻¹ := by
    have h := Real.lt_tan hinv_pos (Real.arctan_lt_pi_div_two _)
    rwa [Real.tan_arctan] at h
  have hlow : Real.pi / 2 - (500 : ℝ)⁻¹ < Real.arctan 500 := by linarith
  have h := mul_lt_mul_of_pos_right hlow hdegpos
  have e1 : (Real.pi / 2 - (500 : ℝ)⁻¹) * (180 / Real.pi) =
      90 - 180 / (500 * Real.pi) := by
    field_simp
    ring
  have e2 : 180 / (500 * Real.pi) < 3 / 25 := by
    rw [div_lt_div_iff₀ (by positivity) (by norm_num)]
    nlinarith
  linarith

end BWR

/-- **C3 counterexample.**  For `u = 1`, `v = -500` the real-valued
direction lies in `[359.5, 360)`, so the integer `direction_deg`
rendered in the bulletin is `round(359.885…) = 360`, outside the
claimed half-open interval `[0, 360)`. -/
theorem direction_deg_reaches_360_C3 :
    pyRound (windDirection 1 (-500)) = 360 := by
  obtain ⟨A, hwd, hA1, hA2⟩ :
      ∃ A : ℝ, windDirection 1 (-500) = pyMod A 360 ∧
        (8997 / 25 : ℝ) < A ∧ A < 360 := by
    refine ⟨270 + Real.arctan 500 * (180 / Real.pi), ?_, ?_, ?_⟩
    · have hat : atan2 (-500 : ℝ) 1 = -Real.arctan 500 := by
        rw [atan2_of_pos_x _ _ one_pos]
        norm_num [Real.arctan_neg]
      have harg : (270 : ℝ) - atan2 (-500) 1 * (180 / Real.pi) =
          270 + Real.arctan 500 * (180 / Real.pi) := by
        rw [hat]
        ring
      unfold windDirection
      rw [harg]
    · have := arctan500_deg_bounds.1
      linarith
    · have := arctan500_deg_bounds.2
      linarith
  have hmod : pyMod A 360 = A := pyMod_eq_self (by linarith) hA2
  have hfl : ⌊A⌋ = 359 := by
    rw [Int.floor_eq_iff]
    push_cast
    constructor <;> linarith
  have hfr : Int.fract A ≠ 1 / 2 := by
    rw [Int.fract, hfl]
    push_cast
    intro hc
    nlinarith
  rw [hwd, hmod, pyRound_of_fract_ne A hfr, round_eq]
  have : ⌊A + 1 / 2⌋ = 360 := by
    rw [Int.floor_eq_iff]
    push_cast
    constructor <;> linarith
  exact this

/-- **C3 (amended).**  For every `(u, v)` the real-valued meteorological
direction `(270 - degrees(atan2(v, u))) % 360` lies in `[0, 360)`; the
integer rendered after rounding therefore lies in the closed interval
`[0, 360]`, and (by the counterexample) the value 360 is attained, so
the rounded field satisfies only the closed bound, not the claimed
half-open one. -/
theorem direction_range_C3 (u v : ℝ) :
    0 ≤ windDirection u v ∧ windDirection u v < 360 ∧
    0 ≤ pyRound (windDirection u v) ∧ pyRound (windDirection u v) ≤ 360 := by
  have h360 : (0 : ℝ) < 360 := by norm_num
  have h1 := pyMod_nonneg h360 (270 - atan2 v u * (180 / Real.pi))
  have h2 := pyMod_lt h360 (270 - atan2 v u * (180 / Real.pi))
  refine ⟨h1, h2, pyRound_nonneg h1, ?_⟩
  have : windDirection u v < ((360 : ℕ) : ℝ) := by push_cast; exact h2
  exact pyRound_le_of_lt this

namespace BWR

/-- Speed of the zero wind vector. -/
lemma windSpeedKph_zero : windSpeedKph 0 0 = 0 := by
  unfold windSpeedKph
  norm_num

/-- Direction of the zero wind vector: `atan2(0,0) = 0` gives 270. -/
lemma windDirection_zero : windDirection 0 0 = 270 := by
  unfold windDirection
  rw [atan2_zero_zero]
  norm_num
  exact pyMod_eq_self (by norm_num) (by norm_num)

/-- Direction for `(u, v) = (0, 10)`: due-south origin, 180 degrees. -/
lemma windDirection_south : windDirection 0 10 = 180 := by
  unfold windDirection
  rw [atan2_pos_y_zero_x 10 (by norm_num)]
  have e : (270 : ℝ) - Real.pi / 2 * (180 / Real.pi) = 180 := by
    field_simp
    ring
  rw [e]
  exact pyMod_eq_self (by norm_num) (by norm_num)

/-- Speed for `(u, v) = (0, 10)`: 36 km/h. -/
lemma windSpeedKph_south : windSpeedKph 0 10 = 36 := by
  unfold windSpeedKph
  rw [show (0 : ℝ) ^ 2 + 10 ^ 2 = 10 ^ 2 by norm_num, Real.sqrt_sq (by norm_num : (0:ℝ) ≤ 10)]
  norm_num

/-- `pyRound` of a small integer literal embedded in `ℝ`. -/
lemma pyRound_ofNat (n : ℕ) : pyRound ((n : ℕ) : ℝ) = n := pyRound_natCast n

end BWR

/-- **C4.**  The wind-vector converter on the two specified instances:
`(u, v) = (0, 0)` yields speed `0` km/h and direction `270`
(`atan2(0, 0) = 0`), and `(u, v) = (0, 10)` yields direction `180` and
speed `36` km/h, both before and after rounding to the nearest
integer. -/
theorem wind_converter_instances_C4 :
    windSpeedKph 0 0 = 0 ∧ pyRound (windSpeedKph 0 0) = 0 ∧
    windDirection 0 0 = 270 ∧ pyRound (windDirection 0 0) = 270 ∧
    windDirection 0 10 = 180 ∧ pyRound (windDirection 0 10) = 180 ∧
    windSpeedKph 0 10 = 36 ∧ pyRound (windSpeedKph 0 10) = 36 := by
  refine ⟨windSpeedKph_zero, ?_, windDirection_zero, ?_, windDirection_south, ?_,
    windSpeedKph_south, ?_⟩
  · rw [windSpeedKph_zero]
    simpa using pyRound_intCast 0
  · rw [windDirection_zero]
    simpa using pyRound_intCast 270
  · rw [windDirection_south]
    simpa using pyRound_intCast 180
  · rw [windSpeedKph_south]
    simpa using pyRound_intCast 36

namespace BWR

/-! ## Atmosphere-model lemmas -/

/-- The troposphere branch applies above the boundary pressure. -/
lemma pressureToHeightStd_of_gt {p : ℝ} (h : p > 226.32) :
    pressureToHeightStd p = heightTropo p := if_pos h

/-- The stratosphere branch applies at and below the boundary pressure. -/
lemma pressureToHeightStd_of_le {p : ℝ} (h : ¬ p > 226.32) :
    pressureToHeightStd p = heightStrato p := if_neg h

/-- The troposphere branch is strictly antitone in pressure. -/
lemma heightTropo_lt {p q : ℝ} (hq0 : 0 < q) (hqp : q < p) :
    heightTropo p < heightTropo q := by
  unfold heightTropo
  have h1 : (0 : ℝ) ≤ q / 1013.25 := by positivity
  have h2 : q / 1013.25 < p / 1013.25 := by gcongr
  have h3 : (0 : ℝ) < (1.0 : ℝ) / 5.25588 := by norm_num
  have h4 := Real.rpow_lt_rpow h1 h2 h3
  linarith

/-- The stratosphere branch is strictly antitone in pressure. -/
lemma heightStrato_lt {p q : ℝ} (hq0 : 0 < q) (hqp : q < p) :
    heightStrato p < heightStrato q := by
  unfold heightStrato
  have h1 : Real.log (q / 226.32) < Real.log (p / 226.32) := by
    apply Real.log_lt_log (by positivity)
    gcongr
  have hc : (1.5769e-4 : ℝ) = 15769 / 100000000 := by norm_num
  rw [hc]
  linarith

/-- The stratosphere branch never drops below 11000 m on `(0, 226.32]`. -/
lemma heightStrato_ge {p : ℝ} (hp0 : 0 < p) (hp : p ≤ 226.32) :
    11000 ≤ heightStrato p := by
  unfold heightStrato
  have h1 : Real.log (p / 226.32) ≤ 0 := by
    apply Real.log_nonpos (by positivity)
    rw [div_le_one (by norm_num)]
    exact hp
  have hc : (1.5769e-4 : ℝ) = 15769 / 100000000 := by norm_num
  rw [hc]
  linarith

/-- Raising `r ↦ r ^ (25000/131397)` to the 131397-th power recovers
`r ^ 25000`. -/
lemma rpow_frac_pow {r : ℝ} (hr : 0 ≤ r) :
    (r ^ ((25000 : ℝ) / 131397)) ^ (131397 : ℕ) = r ^ (25000 : ℕ) := by
  rw [← Real.rpow_natCast (r ^ ((25000 : ℝ) / 131397)) 131397, ← Real.rpow_mul hr,
    ← Real.rpow_natCast r 25000]
  norm_num

/-- Lower-bound transfer for the fractional power. -/
lemma lt_rpow_frac {r c : ℝ} (hr : 0 ≤ r) (_hc : 0 ≤ c)
    (h : c ^ (131397 : ℕ) < r ^ (25000 : ℕ)) :
    c < r ^ ((25000 : ℝ) / 131397) := by
  have ht : (0 : ℝ) ≤ r ^ ((25000 : ℝ) / 131397) := Real.rpow_nonneg hr _
  apply lt_of_pow_lt_pow_left₀ 131397 ht
  rw [rpow_frac_pow hr]
  exact h

/-- Upper-bound transfer for the fractional power. -/
lemma rpow_frac_lt {r c : ℝ} (hr : 0 ≤ r) (hc : 0 ≤ c)
    (h : r ^ (25000 : ℕ) < c ^ (131397 : ℕ)) :
    r ^ ((25000 : ℝ) / 131397) < c := by
  apply lt_of_pow_lt_pow_left₀ 131397 hc
  rw [rpow_frac_pow hr]
  exact h

/-- The literal exponent of the troposphere branch is `25000/131397`. -/
lemma exponent_eq : (1.0 : ℝ) / 5.25588 = (25000 : ℝ) / 131397 := by
  norm_num

/-- `(19/25)^131397 < (1000/4053)^25000`: the kernel-checked numeric
core of the 250 hPa bound. -/
lemma pow_bound_250 :
    ((19 : ℝ) / 25) ^ (131397 : ℕ) < ((1000 : ℝ) / 4053) ^ (25000 : ℕ) := by
  have hnat : (19 : ℕ) ^ 131397 * 4053 ^ 25000 < 1000 ^ 25000 * 25 ^ 131397 := by decide
  rw [div_pow, div_pow, div_lt_div_iff₀ (by positivity) (by positivity)]
  exact_mod_cast hnat

/-- `(15037/20000)^131397 < (7544/33775)^25000`: kernel-checked lower
bound for the boundary power. -/
lemma pow_bound_boundary_low :
    ((15037 : ℝ) / 20000) ^ (131397 : ℕ) < ((7544 : ℝ) / 33775) ^ (25000 : ℕ) := by
  have hnat : (15037 : ℕ) ^ 131397 * 33775 ^ 25000 < 7544 ^ 25000 * 20000 ^ 131397 := by
    decide
  rw [div_pow, div_pow, div_lt_div_iff₀ (by positivity) (by positivity)]
  exact_mod_cast hnat

/-- `(7544/33775)^25000 < (75187/100000)^131397`: kernel-checked upper
bound for the boundary power. -/
lemma pow_bound_boundary_high :
    ((7544 : ℝ) / 33775) ^ (25000 : ℕ) < ((75187 : ℝ) / 100000) ^ (131397 : ℕ) := by
  have hnat : (7544 : ℕ) ^ 25000 * 100000 ^ 131397 < 75187 ^ 131397 * 33775 ^ 25000 := by
    decide
  rw [div_pow, div_pow, div_lt_div_iff₀ (by positivity) (by positivity)]
  exact_mod_cast hnat

/-- `heightTropo 250 < 11000`: the numeric fact behind monotonicity
across the 250 hPa → 150 hPa branch change. -/
lemma heightTropo_250_lt : heightTropo 250 < 11000 := by
  have hbase : (250 : ℝ) / 1013.25 = 1000 / 4053 := by norm_num
  have h := lt_rpow_frac (by norm_num : (0:ℝ) ≤ 1000 / 4053) (by norm_num) pow_bound_250
  unfold heightTropo
  rw [hbase, exponent_eq]
  linarith

/-- Two-sided bound on `(226.32 / 1013.25) ^ (1/5.25588)`, pinning the
troposphere branch at the boundary to `11000 ± 0.5`. -/
lemma boundary_rpow_bounds :
    (15037 / 20000 : ℝ) < ((226.32 : ℝ) / 1013.25) ^ ((1.0 : ℝ) / 5.25588) ∧
    ((226.32 : ℝ) / 1013.25) ^ ((1.0 : ℝ) / 5.25588) < 75187 / 100000 := by
  have hbase : (226.32 : ℝ) / 1013.25 = 7544 / 33775 := by norm_num
  rw [hbase, exponent_eq]
  exact ⟨lt_rpow_frac (by norm_num) (by norm_num) pow_bound_boundary_low,
         rpow_frac_lt (by norm_num) (by norm_num) pow_bound_boundary_high⟩

end BWR

/-- **C2.**  The pressure-to-height conversion is strictly increasing as
pressure decreases along the full standard level set
`900, 700, …, 10` hPa; the troposphere branch at the 226.32 hPa
boundary agrees with the stratosphere branch there within 1 metre
(the exact gap is ≈ 0.18 m); and every positive pressure yields a
finite height (in the real-number model: a value bounded by some
natural number in absolute value). -/
theorem atmosphere_model_C2 :
    List.Chain' (fun a b : ℝ => a < b)
      (BWR_LEVELS_MB.map (fun l => pressureToHeightStd l)) ∧
    |heightTropo 226.32 - heightStrato 226.32| < 1 ∧
    (∀ p : ℝ, 0 < p → ∃ n : ℕ, |pressureToHeightStd p| ≤ n) := by
  refine ⟨?_, ?_, fun p _ => exists_nat_ge |pressureToHeightStd p|⟩
  · have hmap : BWR_LEVELS_MB.map (fun l => pressureToHeightStd l) =
        [pressureToHeightStd 900, pressureToHeightStd 700, pressureToHeightStd 500,
         pressureToHeightStd 400, pressureToHeightStd 300, pressureToHeightStd 250,
         pressureToHeightStd 150, pressureToHeightStd 100, pressureToHeightStd 70,
         pressureToHeightStd 50, pressureToHeightStd 30, pressureToHeightStd 20,
         pressureToHeightStd 10] := by
      norm_num [BWR_LEVELS_MB]
    rw [hmap]
    simp only [List.chain'_cons, List.chain'_singleton, and_true]
    have t900 : pressureToHeightStd (900 : ℝ) = heightTropo 900 :=
      pressureToHeightStd_of_gt (by norm_num)
    have t700 : pressureToHeightStd (700 : ℝ) = heightTropo 700 :=
      pressureToHeightStd_of_gt (by norm_num)
    have t500 : pressureToHeightStd (500 : ℝ) = heightTropo 500 :=
      pressureToHeightStd_of_gt (by norm_num)
    have t400 : pressureToHeightStd (400 : ℝ) = heightTropo 400 :=
      pressureToHeightStd_of_gt (by norm_num)
    have t300 : pressureToHeightStd (300 : ℝ) = heightTropo 300 :=
      pressureToHeightStd_of_gt (by norm_num)
    have t250 : pressureToHeightStd (250 : ℝ) = heightTropo 250 :=
      pressureToHeightStd_of_gt (by norm_num)
    have s150 : pressureToHeightStd (150 : ℝ) = heightStrato 150 :=
      pressureToHeightStd_of_le (by norm_num)
    have s100 : pressureToHeightStd (100 : ℝ) = heightStrato 100 :=
      pressureToHeightStd_of_le (by norm_num)
    have s70 : pressureToHeightStd (70 : ℝ) = heightStrato 70 :=
      pressureToHeightStd_of_le (by norm_num)
    have s50 : pressureToHeightStd (50 : ℝ) = heightStrato 50 :=
      pressureToHeightStd_of_le (by norm_num)
    have s30 : pressureToHeightStd (30 : ℝ) = heightStrato 30 :=
      pressureToHeightStd_of_le (by norm_num)
    have s20 : pressureToHeightStd (20 : ℝ) = heightStrato 20 :=
      pressureToHeightStd_of_le (by norm_num)
    have s10 : pressureToHeightStd (10 : ℝ) = heightStrato 10 :=
      pressureToHeightStd_of_le (by norm_num)
    rw [t900, t700, t500, t400, t300, t250, s150, s100, s70, s50, s30, s20, s10]
    refine ⟨heightTropo_lt (by norm_num) (by norm_num),
            heightTropo_lt (by norm_num) (by norm_num),
            heightTropo_lt (by norm_num) (by norm_num),
            heightTropo_lt (by norm_num) (by norm_num),
            heightTropo_lt (by norm_num) (by norm_num),
            lt_of_lt_of_le heightTropo_250_lt (heightStrato_ge (by norm_num) (by norm_num)),
            heightStrato_lt (by norm_num) (by norm_num),
            heightStrato_lt (by norm_num) (by norm_num),
            heightStrato_lt (by norm_num) (by norm_num),
            heightStrato_lt (by norm_num) (by norm_num),
            heightStrato_lt (by norm_num) (by norm_num),
            heightStrato_lt (by norm_num) (by norm_num)⟩
  · obtain ⟨h1, h2⟩ := boundary_rpow_bounds
    have hstr : heightStrato 226.32 = 11000 := by
      unfold heightStrato
      rw [show (226.32 : ℝ) / 226.32 = 1 by norm_num, Real.log_one]
      norm_num
    have htr : heightTropo 226.32 =
        44330 * (1 - ((226.32 : ℝ) / 1013.25) ^ ((1.0 : ℝ) / 5.25588)) := by
      unfold heightTropo
      norm_num
    rw [hstr, htr, abs_lt]
    constructor <;> linarith

/-- Closed witness for `atmosphere_model_C2`: the finiteness conjunct
instantiated at 100 hPa. -/
theorem atmosphere_model_C2_witness :
    ∃ n : ℕ, |pressureToHeightStd 100| ≤ n :=
  atmosphere_model_C2.2.2 100 (by norm_num)

namespace BWR

/-! ## Pipeline lemmas (`generate_reports`) -/

lemma headerIndex_eq_none {header : List String} {c : String} (h : c ∉ header) :
    headerIndex header c = none := by
  induction header with
  | nil => rfl
  | cons x rest ih =>
      have hxc : ¬ x = c := fun hx => h (by rw [List.mem_cons]; exact Or.inl hx.symm)
      have hcr : c ∉ rest := fun hm => h (List.mem_cons_of_mem x hm)
      unfold headerIndex
      rw [if_neg hxc, ih hcr]
      rfl

lemma optionMapList_eq_none_of_mem {β γ : Type} {f : β → Option γ} {l : List β} {x : β}
    (hx : x ∈ l) (hf : f x = none) : optionMapList f l = none := by
  induction l with
  | nil => exact absurd hx (List.not_mem_nil x)
  | cons y ys ih =>
      rcases List.mem_cons.mp hx with rfl | hmem
      · simp [optionMapList, hf]
      · unfold optionMapList
        rw [ih hmem]
        cases f y <;> rfl

lemma optionMapList_of_forall {β γ : Type} {f : β → Option γ} {g : β → γ} :
    ∀ {l : List β}, (∀ x ∈ l, f x = some (g x)) →
      optionMapList f l = some (l.map g) := by
  intro l
  induction l with
  | nil => intro _; rfl
  | cons y ys ih =>
      intro h
      unfold optionMapList
      rw [h y (List.mem_cons_self y ys), ih (fun x hx => h x (List.mem_cons_of_mem y hx))]
      rfl

/-- A missing required column makes the header lookup fail. -/
lemma findIndices_eq_none {header : List String} {levels : List ℕ} {col : String}
    (hc : col ∈ requiredColumns levels) (hn : col ∉ header) :
    findIndices header levels = none := by
  have hnone : headerIndex header col = none := headerIndex_eq_none hn
  simp only [requiredColumns, List.mem_append, List.mem_cons, List.not_mem_nil,
    or_false, List.mem_flatMap] at hc
  rcases hc with (rfl | rfl | rfl | rfl | rfl) | ⟨l, hl, hcol⟩
  · simp [findIndices, hnone]
  · cases h1 : headerIndex header "bwr_name" <;> simp [findIndices, h1, hnone]
  · cases h1 : headerIndex header "bwr_name" <;>
      cases h2 : headerIndex header "yyyy" <;>
        simp [findIndices, h1, h2, hnone]
  · cases h1 : headerIndex header "bwr_name" <;>
      cases h2 : headerIndex header "yyyy" <;>
        cases h3 : headerIndex header "mm" <;>
          simp [findIndices, h1, h2, h3, hnone]
  · cases h1 : headerIndex header "bwr_name" <;>
      cases h2 : headerIndex header "yyyy" <;>
        cases h3 : headerIndex header "mm" <;>
          cases h4 : headerIndex header "dd" <;>
            simp [findIndices, h1, h2, h3, h4, hnone]
  · have hmap : optionMapList (fun l =>
        (headerIndex header ("u" ++ toString l)).bind fun iu =>
        (headerIndex header ("v" ++ toString l)).map fun iv => (l, iu, iv)) levels = none := by
      apply optionMapList_eq_none_of_mem hl
      rcases hcol with rfl | rfl
      · simp [hnone]
      · cases hu : headerIndex header ("u" ++ toString l) <;> simp [hu, hnone]
    cases h1 : headerIndex header "bwr_name" <;>
      cases h2 : headerIndex header "yyyy" <;>
        cases h3 : headerIndex header "mm" <;>
          cases h4 : headerIndex header "dd" <;>
            cases h5 : headerIndex header "hh" <;>
              simp [findIndices, h1, h2, h3, h4, h5, hmap]

/-- A row whose timestamp does not match the target contributes no
bulletin. -/
lemma reportOf_eq_none_of_not_match {idx : Indices} {target : DateTime}
    {exer dtg zulum : String} {row : List String}
    (h : rowDT idx row ≠ some target) :
    (processRow idx target exer dtg zulum row).reportOf = none := by
  unfold processRow
  cases hdt : rowDT idx row with
  | none => simp [hdt, RowOutcome.reportOf]
  | some dt =>
      have hne : ¬ dt = target := fun hh => h (by rw [hdt, hh])
      simp [hdt, hne, RowOutcome.reportOf]

end BWR

/-- **C9.**  If any required header column (`bwr_name`, `yyyy`, `mm`,
`dd`, `hh`, or any `u{level}`/`v{level}`) is missing from the header
row, the run is fatal: the error is surfaced, no data row is
processed, no count is reported, and the output artifact retains its
pre-existing content. -/
theorem missing_header_column_fatal_C9 (prev : String) (rows : List (List String))
    (levels : List ℕ) (exer : String) (c m f e : DateTime)
    (hlen : ¬ rows.length < 3)
    (hmiss : ∃ col ∈ requiredColumns levels, col ∉ rows.getD 1 []) :
    generateReports prev rows levels exer c m f e =
      { artifact := prev, reportedCount := none,
        errorMsg := some "Error parsing CSV header",
        rowDiagnostics := 0, processedRows := 0 } := by
  obtain ⟨col, hc, hn⟩ := hmiss
  have hfind := findIndices_eq_none hc hn
  simp only [generateReports]
  rw [if_neg hlen, hfind]

/-- Closed witness for `missing_header_column_fatal_C9`: a header
missing the `hh` column leaves the previous artifact `"OLD"` in place
and reports nothing. -/
theorem missing_header_column_fatal_C9_witness :
    generateReports "OLD" [["meta"], ["bwr_name", "yyyy", "mm", "dd"], ["r1"]]
      BWR_LEVELS_MB "EXER/TESTCOAS/-" ⟨2025, 4, 14, 19, 33, 0, 0⟩
      ⟨2025, 4, 14, 12, 0, 0, 0⟩ ⟨2025, 4, 16, 0, 0, 0, 0⟩ ⟨2025, 4, 16, 6, 0, 0, 0⟩ =
      { artifact := "OLD", reportedCount := none,
        errorMsg := some "Error parsing CSV header",
        rowDiagnostics := 0, processedRows := 0 } :=
  missing_header_column_fatal_C9 _ _ _ _ _ _ _ _ (by decide)
    ⟨"hh", by simp [requiredColumns], by decide⟩

/-- **C10.**  Over a structurally readable dataset (at least three rows,
all required header columns present) the output artifact is fully
overwritten — its final content is the newline-join of the bulletins of
the matched rows and is independent of the pre-existing content — and a
requested valid time matching no data row is not an error: it yields an
empty artifact and a reported count of 0. -/
theorem overwrite_and_zero_match_C10 (prev prev' : String) (rows : List (List String))
    (levels : List ℕ) (exer : String) (c m f e : DateTime) (idx : Indices)
    (hlen : ¬ rows.length < 3)
    (hidx : findIndices (rows.getD 1 []) levels = some idx) :
    (generateReports prev rows levels exer c m f e).artifact =
      String.intercalate "\n"
        (((rows.drop 2).map (processRow idx e.truncToHour (fixExer exer)
            ("DTG/" ++ formatDtg c ++ "//")
            ("ZULUM/" ++ formatDtg m ++ "/" ++ formatDtg f ++ "/" ++
              formatDtg e ++ "//"))).filterMap RowOutcome.reportOf) ∧
    (generateReports prev rows levels exer c m f e).artifact =
      (generateReports prev' rows levels exer c m f e).artifact ∧
    ((∀ row ∈ rows.drop 2, rowDT idx row ≠ some e.truncToHour) →
      (generateReports prev rows levels exer c m f e).artifact = "" ∧
      (generateReports prev rows levels exer c m f e).reportedCount = some 0) := by
  have hart : ∀ p : String, (generateReports p rows levels exer c m f e).artifact =
      String.intercalate "\n"
        (((rows.drop 2).map (processRow idx e.truncToHour (fixExer exer)
            ("DTG/" ++ formatDtg c ++ "//")
            ("ZULUM/" ++ formatDtg m ++ "/" ++ formatDtg f ++ "/" ++
              formatDtg e ++ "//"))).filterMap RowOutcome.reportOf) := by
    intro p
    simp only [generateReports]
    rw [if_neg hlen, hidx]
  refine ⟨hart prev, by rw [hart prev, hart prev'], ?_⟩
  intro hno
  have hnil : ((rows.drop 2).map (processRow idx e.truncToHour (fixExer exer)
      ("DTG/" ++ formatDtg c ++ "//")
      ("ZULUM/" ++ formatDtg m ++ "/" ++ formatDtg f ++ "/" ++
        formatDtg e ++ "//"))).filterMap RowOutcome.reportOf = [] := by
    rw [List.filterMap_map, List.filterMap_eq_nil_iff]
    intro row hr
    exact reportOf_eq_none_of_not_match (hno row hr)
  constructor
  · rw [hart prev, hnil]
    rfl
  · have hcnt : (generateReports prev rows levels exer c m f e).reportedCount =
        some (((rows.drop 2).map (processRow idx e.truncToHour (fixExer exer)
            ("DTG/" ++ formatDtg c ++ "//")
            ("ZULUM/" ++ formatDtg m ++ "/" ++ formatDtg f ++ "/" ++
              formatDtg e ++ "//"))).filterMap RowOutcome.reportOf).length := by
      simp only [generateReports]
      rw [if_neg hlen, hidx]
    rw [hcnt, hnil]
    rfl

namespace BWR

/-! ## Concrete demonstration data -/

/-- A header row carrying every required column in natural order. -/
def demoHeader : List String :=
  ["bwr_name", "yyyy", "mm", "dd", "hh",
   "u900", "v900", "u700", "v700", "u500", "v500", "u400", "v400", "u300", "v300",
   "u250", "v250", "u150", "v150", "u100", "v100", "u70", "v70", "u50", "v50",
   "u30", "v30", "u20", "v20", "u10", "v10"]

/-- The column indices extracted from `demoHeader`. -/
def demoIdx : Indices :=
  ⟨0, 1, 2, 3, 4,
   [(900, 5, 6), (700, 7, 8), (500, 9, 10), (400, 11, 12), (300, 13, 14),
    (250, 15, 16), (150, 17, 18), (100, 19, 20), (70, 21, 22), (50, 23, 24),
    (30, 25, 26), (20, 27, 28), (10, 29, 30)]⟩

lemma findIndices_demoHeader :
    findIndices demoHeader BWR_LEVELS_MB = some demoIdx := by decide

/-- A data row at `(2025, 4, 16, 6)` whose `u900` field is the
non-numeric string `"abc"`. -/
def demoBadWindRow6 : List String :=
  ["AREA1", "2025", "4", "16", "6", "abc"] ++ List.replicate 25 "0"

/-- A data row at `(2025, 4, 16, 7)` whose `u900` field is the
non-numeric string `"abc"`. -/
def demoBadWindRow7 : List String :=
  ["AREA1", "2025", "4", "16", "7", "abc"] ++ List.replicate 25 "0"

/-- A well-formed data row at `(2025, 4, 16, 6)`. -/
def demoMatchRow : List String :=
  ["AREA1", "2025", "4", "16", "6"] ++ List.replicate 26 "0"

/-- Row skipping when the time fields are unparsable. -/
lemma processRow_skipped_of_rowDT_none {idx : Indices} {target : DateTime}
    {exer dtg zulum : String} {row : List String}
    (h : rowDT idx row = none) :
    processRow idx target exer dtg zulum row = .skipped := by
  unfold processRow
  simp [h]

/-- Row skipping when a matched row's wind-field parsing fails. -/
lemma processRow_skipped_of_bad_winds {idx : Indices} {target : DateTime}
    {exer dtg zulum : String} {row : List String}
    (h1 : rowDT idx row = some target)
    (h2 : parseWinds row idx.levels = none) :
    processRow idx target exer dtg zulum row = .skipped := by
  unfold processRow
  cases hname : row.get? idx.name with
  | none => simp [h1, hname]
  | some a => simp [h1, hname, createSingleReport, h2]

end BWR

/-- Closed witness for `overwrite_and_zero_match_C10`: a run whose single
data row sits at hour 7 while the requested valid time is
`2025-04-16T06:30` overwrites the pre-existing artifact with the empty
string and reports a count of 0. -/
theorem overwrite_and_zero_match_C10_witness :
    (generateReports "PREVIOUS CONTENT" [["meta"], demoHeader, demoBadWindRow7]
      BWR_LEVELS_MB "EXER/TESTCOAS/-" ⟨2025, 4, 14, 19, 33, 0, 0⟩
      ⟨2025, 4, 14, 12, 0, 0, 0⟩ ⟨2025, 4, 16, 0, 0, 0, 0⟩
      ⟨2025, 4, 16, 6, 30, 0, 0⟩).artifact = "" ∧
    (generateReports "PREVIOUS CONTENT" [["meta"], demoHeader, demoBadWindRow7]
      BWR_LEVELS_MB "EXER/TESTCOAS/-" ⟨2025, 4, 14, 19, 33, 0, 0⟩
      ⟨2025, 4, 14, 12, 0, 0, 0⟩ ⟨2025, 4, 16, 0, 0, 0, 0⟩
      ⟨2025, 4, 16, 6, 30, 0, 0⟩).reportedCount = some 0 :=
  (overwrite_and_zero_match_C10 "PREVIOUS CONTENT" ""
    [["meta"], demoHeader, demoBadWindRow7] BWR_LEVELS_MB "EXER/TESTCOAS/-"
    ⟨2025, 4, 14, 19, 33, 0, 0⟩ ⟨2025, 4, 14, 12, 0, 0, 0⟩ ⟨2025, 4, 16, 0, 0, 0, 0⟩
    ⟨2025, 4, 16, 6, 30, 0, 0⟩ demoIdx (by decide)
    (by exact findIndices_demoHeader)).2.2 (by decide)

/-- **C8 counterexample.**  A data row whose wind field `u900 = "abc"` is
non-numeric but whose timestamp does not match the requested valid time
is passed over with **no** diagnostic (`rowDiagnostics = 0`): the wind
fields of a non-matching row are never even parsed, contradicting the
claim that every row with non-numeric wind fields emits a
diagnostic. -/
theorem unmatched_bad_wind_row_silent_C8 :
    pyFloat "abc" = none ∧
    rowDT demoIdx demoBadWindRow7 = some ⟨2025, 4, 16, 7, 0, 0, 0⟩ ∧
    (generateReports "" [["meta"], demoHeader, demoBadWindRow7] BWR_LEVELS_MB
      "EXER/TESTCOAS/-" ⟨2025, 4, 14, 19, 33, 0, 0⟩ ⟨2025, 4, 14, 12, 0, 0, 0⟩
      ⟨2025, 4, 16, 0, 0, 0, 0⟩ ⟨2025, 4, 16, 6, 30, 0, 0⟩).rowDiagnostics = 0 ∧
    (generateReports "" [["meta"], demoHeader, demoBadWindRow7] BWR_LEVELS_MB
      "EXER/TESTCOAS/-" ⟨2025, 4, 14, 19, 33, 0, 0⟩ ⟨2025, 4, 14, 12, 0, 0, 0⟩
      ⟨2025, 4, 16, 0, 0, 0, 0⟩ ⟨2025, 4, 16, 6, 30, 0, 0⟩).processedRows = 1 := by
  refine ⟨by decide, by decide, ?_, ?_⟩ <;>
    · simp only [generateReports]
      rw [if_neg (by decide),
        show findIndices ([["meta"], demoHeader, demoBadWindRow7].getD 1 [])
            BWR_LEVELS_MB = some demoIdx from findIndices_demoHeader]
      rfl

/-- **C8 (amended).**  Under a readable dataset: every data row is
examined (`processedRows` equals the number of data rows); a row whose
time fields are unparsable is skipped with a diagnostic; a row that
matches the requested valid time but whose wind fields are non-numeric
or missing is skipped with a diagnostic; skipped rows contribute no
bulletin; the count of successfully produced bulletins is reported; and
the number of diagnostics equals the number of skipped rows.  (A
non-matching row with bad wind fields, however, is passed over silently
— see the counterexample.) -/
theorem row_error_policy_C8 (prev : String) (rows : List (List String))
    (levels : List ℕ) (exer : String) (c m f e : DateTime) (idx : Indices)
    (hlen : ¬ rows.length < 3)
    (hidx : findIndices (rows.getD 1 []) levels = some idx) :
    (generateReports prev rows levels exer c m f e).processedRows =
      (rows.drop 2).length ∧
    (generateReports prev rows levels exer c m f e).reportedCount =
      some (((rows.drop 2).map (processRow idx e.truncToHour (fixExer exer)
          ("DTG/" ++ formatDtg c ++ "//")
          ("ZULUM/" ++ formatDtg m ++ "/" ++ formatDtg f ++ "/" ++
            formatDtg e ++ "//"))).filterMap RowOutcome.reportOf).length ∧
    (generateReports prev rows levels exer c m f e).rowDiagnostics =
      ((rows.drop 2).map (processRow idx e.truncToHour (fixExer exer)
          ("DTG/" ++ formatDtg c ++ "//")
          ("ZULUM/" ++ formatDtg m ++ "/" ++ formatDtg f ++ "/" ++
            formatDtg e ++ "//"))).countP (fun o => o.isSkipped) ∧
    (∀ row ∈ rows.drop 2, rowDT idx row = none →
      processRow idx e.truncToHour (fixExer exer)
        ("DTG/" ++ formatDtg c ++ "//")
        ("ZULUM/" ++ formatDtg m ++ "/" ++ formatDtg f ++ "/" ++
          formatDtg e ++ "//") row = .skipped) ∧
    (∀ row ∈ rows.drop 2, rowDT idx row = some e.truncToHour →
      parseWinds row idx.levels = none →
      processRow idx e.truncToHour (fixExer exer)
        ("DTG/" ++ formatDtg c ++ "//")
        ("ZULUM/" ++ formatDtg m ++ "/" ++ formatDtg f ++ "/" ++
          formatDtg e ++ "//") row = .skipped) ∧
    RowOutcome.reportOf .skipped = none := by
  refine ⟨?_, ?_, ?_, fun row _ h => processRow_skipped_of_rowDT_none h,
    fun row _ h1 h2 => processRow_skipped_of_bad_winds h1 h2, rfl⟩ <;>
    · simp only [generateReports]
      rw [if_neg hlen, hidx]
      all_goals simp

/-- Closed witness for `row_error_policy_C8`: the single data row of the
demonstration dataset is examined (`processedRows = 1`). -/
theorem row_error_policy_C8_witness :
    (generateReports "" [["meta"], demoHeader, demoBadWindRow6] BWR_LEVELS_MB
      "EXER/TESTCOAS/-" ⟨2025, 4, 14, 19, 33, 0, 0⟩ ⟨2025, 4, 14, 12, 0, 0, 0⟩
      ⟨2025, 4, 16, 0, 0, 0, 0⟩ ⟨2025, 4, 16, 6, 30, 0, 0⟩).processedRows = 1 := by
  have h := (row_error_policy_C8 "" [["meta"], demoHeader, demoBadWindRow6]
    BWR_LEVELS_MB "EXER/TESTCOAS/-" ⟨2025, 4, 14, 19, 33, 0, 0⟩
    ⟨2025, 4, 14, 12, 0, 0, 0⟩ ⟨2025, 4, 16, 0, 0, 0, 0⟩ ⟨2025, 4, 16, 6, 30, 0, 0⟩
    demoIdx (by decide) (by exact findIndices_demoHeader)).1
  simpa using h

namespace BWR

/-- `datetime(y, m, d, h)` hits exactly the hour-truncation of a valid
timestamp iff the four arguments equal its (year, month, day, hour). -/
lemma mkDateTime_eq_some_trunc {e : DateTime} (hv : e.Valid) (y m d h : ℤ) :
    mkDateTime y m d h = some e.truncToHour ↔
      (y = e.year ∧ m = e.month ∧ d = e.day ∧ h = e.hour) := by
  constructor
  · intro heq
    simp only [mkDateTime] at heq
    by_cases hcond : 1 ≤ y ∧ y ≤ 9999 ∧ 1 ≤ m ∧ m ≤ 12 ∧ 1 ≤ d ∧ 0 ≤ h ∧ h ≤ 23
    · rw [if_pos hcond] at heq
      obtain ⟨hy1, -, hm1, -, hd1, hh0, -⟩ := hcond
      by_cases hdm : d.toNat ≤ daysInMonth y.toNat m.toNat
      · rw [if_pos hdm, Option.some_inj] at heq
        have e1 : y.toNat = e.year := congrArg DateTime.year heq
        have e2 : m.toNat = e.month := congrArg DateTime.month heq
        have e3 : d.toNat = e.day := congrArg DateTime.day heq
        have e4 : h.toNat = e.hour := congrArg DateTime.hour heq
        refine ⟨?_, ?_, ?_, ?_⟩
        · rw [← e1]
          exact (Int.toNat_of_nonneg (by linarith)).symm
        · rw [← e2]
          exact (Int.toNat_of_nonneg (by linarith)).symm
        · rw [← e3]
          exact (Int.toNat_of_nonneg (by linarith)).symm
        · rw [← e4]
          exact (Int.toNat_of_nonneg hh0).symm
      · rw [if_neg hdm] at heq
        exact absurd heq (by simp)
    · rw [if_neg hcond] at heq
      exact absurd heq (by simp)
  · rintro ⟨rfl, rfl, rfl, rfl⟩
    obtain ⟨h1, h2, h3, h4, h5, h6, h7, -⟩ := hv
    have hcond : (1 : ℤ) ≤ (e.year : ℤ) ∧ (e.year : ℤ) ≤ 9999 ∧
        (1 : ℤ) ≤ (e.month : ℤ) ∧ (e.month : ℤ) ≤ 12 ∧ (1 : ℤ) ≤ (e.day : ℤ) ∧
        (0 : ℤ) ≤ (e.hour : ℤ) ∧ (e.hour : ℤ) ≤ 23 :=
      ⟨by exact_mod_cast h1, by exact_mod_cast h2, by exact_mod_cast h3,
       by exact_mod_cast h4, by exact_mod_cast h5, Int.natCast_nonneg _,
       by exact_mod_cast h7⟩
    simp only [mkDateTime, Int.toNat_natCast]
    rw [if_pos hcond, if_pos h6]
    rfl

end BWR

/-- Row selection reduces to equality of the parsed integer tuple with
the truncated valid time's fields. -/
lemma rowDT_eq_trunc_iff {idx : Indices} {row : List String} {e : DateTime}
    (hv : e.Valid) :
    rowDT idx row = some e.truncToHour ↔
      rowTimeTuple idx row =
        some ((e.year : ℤ), (e.month : ℤ), (e.day : ℤ), (e.hour : ℤ)) := by
  unfold rowDT
  cases htt : rowTimeTuple idx row with
  | none => simp
  | some q =>
      obtain ⟨y, m, d, h⟩ := q
      simp only [Option.some_bind, Option.some_inj]
      rw [mkDateTime_eq_some_trunc hv]
      simp [Prod.ext_iff]

/-- A row's fate is `produced r` exactly when it matches and its report
builds to `r`. -/
lemma processRow_produced_iff {idx : Indices} {target : DateTime}
    {exer dtg zulum : String} {row : List String} {r : String} :
    processRow idx target exer dtg zulum row = .produced r ↔
      (rowDT idx row = some target ∧
        ∃ a, row.get? idx.name = some a ∧
          createSingleReport row idx.levels a exer dtg zulum = some r) := by
  unfold processRow
  cases hdt : rowDT idx row with
  | none => simp [hdt]
  | some dt =>
      by_cases hdtt : dt = target
      · subst hdtt
        cases hname : row.get? idx.name with
        | none => simp [hname]
        | some a =>
            cases hrep : createSingleReport row idx.levels a exer dtg zulum with
            | none => simp [hname, hrep]
            | some r' => simp [hname, hrep, eq_comm]
      · simp [hdtt, Option.some_inj]

/-- **C6 counterexample.**  A data row whose `(yyyy, mm, dd, hh)` equals
the truncated requested valid time — i.e. a *selected* row — but whose
`u900` field is non-numeric yields **no** bulletin: the run's artifact
is empty and the reported count is 0, contradicting "every selected row
yields exactly one area bulletin in the output". -/
theorem selected_row_without_bulletin_C6 :
    rowDT demoIdx demoBadWindRow6 =
      some (DateTime.truncToHour ⟨2025, 4, 16, 6, 30, 0, 0⟩) ∧
    (generateReports "" [["meta"], demoHeader, demoBadWindRow6] BWR_LEVELS_MB
      "EXER/TESTCOAS/-" ⟨2025, 4, 14, 19, 33, 0, 0⟩ ⟨2025, 4, 14, 12, 0, 0, 0⟩
      ⟨2025, 4, 16, 0, 0, 0, 0⟩ ⟨2025, 4, 16, 6, 30, 0, 0⟩).artifact = "" ∧
    (generateReports "" [["meta"], demoHeader, demoBadWindRow6] BWR_LEVELS_MB
      "EXER/TESTCOAS/-" ⟨2025, 4, 14, 19, 33, 0, 0⟩ ⟨2025, 4, 14, 12, 0, 0, 0⟩
      ⟨2025, 4, 16, 0, 0, 0, 0⟩ ⟨2025, 4, 16, 6, 30, 0, 0⟩).reportedCount = some 0 := by
  refine ⟨by decide, ?_, ?_⟩ <;>
    · simp only [generateReports]
      rw [if_neg (by decide),
        show findIndices ([["meta"], demoHeader, demoBadWindRow6].getD 1 [])
            BWR_LEVELS_MB = some demoIdx from findIndices_demoHeader]
      rfl

/-- **C6 (amended).**  A data row is selected iff its parsed
`(yyyy, mm, dd, hh)` tuple equals the requested valid time truncated to
the hour (no tolerance); a selected row yields exactly one bulletin —
the one produced by `_create_single_report` — *provided* its area-name
field exists and its report builds (wind fields numeric); and the
concrete tuple `(2025, 4, 16, 6)` matches a request for
`2025-04-16T06:30` but not for `2025-04-16T07:00`. -/
theorem dataset_selection_C6 (idx : Indices) (e : DateTime) (row : List String)
    (exer dtg zulum : String) (hv : e.Valid) :
    (rowDT idx row = some e.truncToHour ↔
      rowTimeTuple idx row =
        some ((e.year : ℤ), (e.month : ℤ), (e.day : ℤ), (e.hour : ℤ))) ∧
    (∀ r : String, processRow idx e.truncToHour exer dtg zulum row = .produced r ↔
      (rowDT idx row = some e.truncToHour ∧
        ∃ a, row.get? idx.name = some a ∧
          createSingleReport row idx.levels a exer dtg zulum = some r)) ∧
    rowDT demoIdx demoMatchRow =
      some (DateTime.truncToHour ⟨2025, 4, 16, 6, 30, 0, 0⟩) ∧
    rowDT demoIdx demoMatchRow ≠
      some (DateTime.truncToHour ⟨2025, 4, 16, 7, 0, 0, 0⟩) :=
  ⟨rowDT_eq_trunc_iff hv, fun _ => processRow_produced_iff, by decide, by decide⟩

/-- Closed witness for `dataset_selection_C6`: at the request
`2025-04-16T06:30`, the selection criterion for the demonstration row
is exactly tuple equality with `(2025, 4, 16, 6)`. -/
theorem dataset_selection_C6_witness :
    rowDT demoIdx demoMatchRow =
        some (DateTime.truncToHour ⟨2025, 4, 16, 6, 30, 0, 0⟩) ↔
      rowTimeTuple demoIdx demoMatchRow = some (2025, 4, 16, 6) :=
  (dataset_selection_C6 demoIdx ⟨2025, 4, 16, 6, 30, 0, 0⟩ demoMatchRow
    "" "" "" (by decide)).1

namespace BWR

/-! ## Constant-profile evaluation (towards the end-to-end instance) -/

variable {α : Type} [LinearOrderedField α]

lemma selectPair_cons (d : α × α × α) (ds : List (α × α × α)) (t : α) :
    selectPair (d :: ds) t =
      if t < d.1 then some (d, d)
      else if t > ((d :: ds).getLast (List.cons_ne_nil d ds)).1 then
        some ((d :: ds).getLast (List.cons_ne_nil d ds),
          (d :: ds).getLast (List.cons_ne_nil d ds))
      else
        match findBracket t (d :: ds) with
        | some pr => some pr
        | none => some (d, d) := rfl

lemma findBracket_mem {t : α} :
    ∀ {l : List (α × α × α)} {pr : (α × α × α) × (α × α × α)},
      findBracket t l = some pr → pr.1 ∈ l ∧ pr.2 ∈ l := by
  intro l
  induction l with
  | nil => intro pr h; simp [findBracket] at h
  | cons p rest ih =>
      intro pr h
      cases rest with
      | nil => simp [findBracket] at h
      | cons q rest' =>
          rw [findBracket_cons_cons] at h
          by_cases hc : p.1 ≤ t ∧ t ≤ q.1
          · rw [if_pos hc, Option.some_inj] at h
            subst h
            exact ⟨List.mem_cons_self _ _,
              List.mem_cons_of_mem _ (List.mem_cons_self _ _)⟩
          · rw [if_neg hc] at h
            obtain ⟨h1, h2⟩ := ih h
            exact ⟨List.mem_cons_of_mem _ h1, List.mem_cons_of_mem _ h2⟩

lemma selectPair_mem {t : α} {dps : List (α × α × α)}
    {pr : (α × α × α) × (α × α × α)} (h : selectPair dps t = some pr) :
    pr.1 ∈ dps ∧ pr.2 ∈ dps := by
  cases dps with
  | nil => simp [selectPair] at h
  | cons d ds =>
      rw [selectPair_cons] at h
      by_cases h1 : t < d.1
      · rw [if_pos h1, Option.some_inj] at h
        subst h
        exact ⟨List.mem_cons_self _ _, List.mem_cons_self _ _⟩
      · rw [if_neg h1] at h
        by_cases h2 : t > ((d :: ds).getLast (List.cons_ne_nil d ds)).1
        · rw [if_pos h2, Option.some_inj] at h
          subst h
          exact ⟨List.getLast_mem _, List.getLast_mem _⟩
        · rw [if_neg h2] at h
          cases hfb : findBracket t (d :: ds) with
          | some pr' =>
              rw [hfb, Option.some_inj] at h
              subst h
              exact findBracket_mem hfb
          | none =>
              rw [hfb, Option.some_inj] at h
              subst h
              exact ⟨List.mem_cons_self _ _, List.mem_cons_self _ _⟩

lemma selectPair_isSome {dps : List (α × α × α)} (hne : dps ≠ []) (t : α) :
    ∃ pr, selectPair dps t = some pr := by
  cases dps with
  | nil => exact absurd rfl hne
  | cons d ds =>
      rw [selectPair_cons]
      by_cases h1 : t < d.1
      · exact ⟨_, by rw [if_pos h1]⟩
      · rw [if_neg h1]
        by_cases h2 : t > ((d :: ds).getLast (List.cons_ne_nil d ds)).1
        · exact ⟨_, by rw [if_pos h2]⟩
        · rw [if_neg h2]
          cases hfb : findBracket t (d :: ds) with
          | some pr' => exact ⟨pr', rfl⟩
          | none => exact ⟨(d, d), rfl⟩

/-- A profile whose `(u, v)` values are all `(a, b)` interpolates to
`(a, b)` at every target. -/
lemma interpUV_const {a b t : α} {dps : List (α × α × α)} (hne : dps ≠ [])
    (hall : ∀ p ∈ dps, p.2.1 = a ∧ p.2.2 = b) :
    interpUV dps t = some (a, b) := by
  obtain ⟨pr, hpr⟩ := selectPair_isSome hne t
  obtain ⟨h1, h2⟩ := selectPair_mem hpr
  unfold interpUV
  rw [hpr]
  obtain ⟨ha1, hb1⟩ := hall pr.1 h1
  obtain ⟨ha2, hb2⟩ := hall pr.2 h2
  simp only [Option.map_some']
  rw [ha1, hb1, ha2, hb2, interpolateValue_const, interpolateValue_const]

/-- The uniform test profile: `(u, v) = (0, 10)` at every configured
pressure level. -/
def constWinds : List (ℕ × ℚ × ℚ) := BWR_LEVELS_MB.map (fun l => (l, 0, 10))

lemma buildDataPoints_mem_const {p : ℝ × ℝ × ℝ}
    (hp : p ∈ buildDataPoints constWinds) : p.2.1 = 0 ∧ p.2.2 = 10 := by
  unfold buildDataPoints at hp
  rw [List.mem_mergeSort] at hp
  obtain ⟨w, hw, rfl⟩ := List.mem_map.mp hp
  unfold constWinds at hw
  obtain ⟨l, -, rfl⟩ := List.mem_map.mp hw
  norm_num

lemma buildDataPoints_const_ne : buildDataPoints constWinds ≠ [] := by
  intro h
  have hlen := congrArg List.length h
  rw [buildDataPoints, List.length_mergeSort, List.length_map] at hlen
  simp [constWinds, BWR_LEVELS_MB] at hlen

/-- Every layer of the uniform profile renders as `HH/180/036`. -/
lemma layerField_const (k : ℕ) :
    layerField (buildDataPoints constWinds) k =
      some (padNum 2 (k : ℤ) ++ "/" ++ "180" ++ "/" ++ "036") := by
  unfold layerField
  rw [interpUV_const buildDataPoints_const_ne (fun p hp => buildDataPoints_mem_const hp)]
  simp only [Option.map_some']
  rw [windDirection_south, windSpeedKph_south]
  have hr1 : pyRound (180 : ℝ) = 180 := by simpa using pyRound_intCast 180
  have hr2 : pyRound (36 : ℝ) = 36 := by simpa using pyRound_intCast 36
  rw [hr1, hr2]
  rfl

end BWR

/-- **C7.**  Bulletin formatting: the creation timestamp
`2025-04-14T19:33` renders as `141933ZAPR2025` (uppercase
`DDHHMMZMONYYYY`), the DTG and ZULUM header lines for the given model
and forecast times are exactly as specified, the layers run in
ascending order `2, 4, …, 30`, the exercise tag is closed with `//`,
and a full bulletin renders as exactly the eight specified lines in
order — exercise tag, static MSGID, static GEODATUM, DTG line, AREAM
line, ZULUM line, static units line, and one LAYERM line concatenating
all 15 layers with `HH` zero-padded to 2 digits and `DDD`/`FFF` to 3
digits (shown on the uniform profile `(u, v) = (0, 10)`, whose layers
all render `180`/`036`). -/
theorem bulletin_format_C7 :
    formatDtg ⟨2025, 4, 14, 19, 33, 0, 0⟩ = "141933ZAPR2025" ∧
    "DTG/" ++ formatDtg ⟨2025, 4, 14, 19, 33, 0, 0⟩ ++ "//" = "DTG/141933ZAPR2025//" ∧
    "ZULUM/" ++ formatDtg ⟨2025, 4, 14, 12, 0, 0, 0⟩ ++ "/" ++
        formatDtg ⟨2025, 4, 16, 0, 0, 0, 0⟩ ++ "/" ++
        formatDtg ⟨2025, 4, 16, 6, 0, 0, 0⟩ ++ "//" =
      "ZULUM/141200ZAPR2025/160000ZAPR2025/160600ZAPR2025//" ∧
    layerTopsKm = [2, 4, 6, 8, 10, 12, 14, 16, 18, 20, 22, 24, 26, 28, 30] ∧
    fixExer "EXER/TESTCOAS/-" = "EXER/TESTCOAS/-//" ∧
    renderReport constWinds "AREA1" "EXER/TESTCOAS/-//" "DTG/141933ZAPR2025//"
        "ZULUM/141200ZAPR2025/160000ZAPR2025/160600ZAPR2025//" =
      some ("EXER/TESTCOAS/-//\nMSGID/CBRN BWR/IMGW-PIB/-/-/-/-/-/-/-/-//\nGEODATUM/WGE//\nDTG/141933ZAPR2025//\nAREAM/AREA1//\nZULUM/141200ZAPR2025/160000ZAPR2025/160600ZAPR2025//\nUNITM/-/DGG/KPH/-//\nLAYERM/02/180/036/04/180/036/06/180/036/08/180/036/10/180/036/12/180/036/14/180/036/16/180/036/18/180/036/20/180/036/22/180/036/24/180/036/26/180/036/28/180/036/30/180/036//") := by
  refine ⟨rfl, rfl, rfl, rfl, rfl, ?_⟩
  have hmap : optionMapList (layerField (buildDataPoints constWinds)) layerTopsKm =
      some (layerTopsKm.map fun k => padNum 2 (k : ℤ) ++ "/" ++ "180" ++ "/" ++ "036") :=
    optionMapList_of_forall (fun k _ => layerField_const k)
  simp only [renderReport]
  rw [hmap]
  rfl
